import Mathlib

/-!
Shallow embedding of the `mirai_extensions.trigger` package
(files `filter.py`, `trigger.py`, `handler.py`, `interrupt.py`).

Modelling conventions:
* Events and payload values are `Nat`; a Python value that may be `None`
  is `Option Nat` (`none` = Python `None`).
* A Python filter function is a pure Lean function.  `mirai.utils.async_`
  awaits its argument when it is awaitable and otherwise returns it
  unchanged, so in a sequential embedding it is the identity and a filter
  is simply `Nat → FilterOutcome`, where the outcome is either a returned
  value or a raised exception (exceptions are identified by a `Nat` code).
* `asyncio.Future` is modelled by `FutureState`; `Trigger._future` being
  the Python `None` is `Option FutureState = none`.
* A Python attribute that may be *unset* (so that reading it raises
  `AttributeError`) is modelled with an outer `Option`.
* Fallible operations return `Except PyErr`.
-/

namespace TriggerSpec

/-- Python exceptions that the embedded code can raise or store. -/
inductive PyErr where
  /-- Reading an attribute that was never assigned. -/
  | attributeError
  /-- `RuntimeError('触发器已被等待。')` raised by `Trigger.wait`. -/
  | runtimeError
  /-- `asyncio.CancelledError` from awaiting a cancelled future. -/
  | cancelledError
  /-- An application exception raised by a filter, identified by a code. -/
  | exc (code : Nat)
  deriving DecidableEq, Repr

/-- Result of calling a Python filter function on an event:
either it returns a value (possibly `None`) or it raises. -/
inductive FilterOutcome where
  | value (v : Option Nat)
  | raise (e : Nat)
  deriving DecidableEq, Repr

/-- A filter function attached to a `Trigger` (`TFilter` in `trigger.py`). -/
def TFilterFun : Type := Nat → FilterOutcome

/-! ## `filter.py`: `BaseFilter` / `Filter`

`BaseFilter` holds a list `mixin` of child filters; `Filter` additionally
holds an optional capture function `_func`.  `BaseFilter._catch` returns
the event itself, which coincides with `Filter._catch` when `_func is
None`, so one node type with an optional local function covers both
classes.  The `event_name` tag plays no role in `catch` and is omitted;
instead each node carries a `Nat` label so that evaluation order can be
observed.  These filter functions are the synchronous kind
(`filter.py`'s `TFilter`), returning `Option Nat` (`none` = no capture).
-/

inductive BaseFilter where
  | node (label : Nat) (mixin : List BaseFilter) (func : Option (Nat → Option Nat))

/-- The label of a filter node (instrumentation only). -/
def BaseFilter.label : BaseFilter → Nat
  | .node l _ _ => l

/-- Embeds `Filter._catch`:
`if self._func is None: return event` else `return self._func(event)`.
(`BaseFilter._catch` is the `func = none` case.) -/
def localCatch (func : Option (Nat → Option Nat)) (e : Nat) : Option Nat :=
  match func with
  | none => some e
  | some g => g e

mutual
/-- Embeds `BaseFilter.catch`:
`if any(filter.catch(event) is None for filter in self.mixin): return None`
then `return self._catch(event)`. -/
def BaseFilter.catch : BaseFilter → Nat → Option Nat
  | .node _ mixin func, e =>
      if anyMixinNone mixin e then none else localCatch func e

/-- Embeds the generator fed to Python's `any`, which evaluates
`filter.catch(event) is None` bucket by bucket, left to right, and
stops at the first `True` — exactly this recursion with `||`. -/
def anyMixinNone : List BaseFilter → Nat → Bool
  | [], _ => false
  | m :: rest, e => (BaseFilter.catch m e).isNone || anyMixinNone rest e
end

/-- Instrumented re-evaluation of `BaseFilter.catch`'s mixin walk: returns
whether some mixin failed to capture, together with the labels of the
mixins whose `catch` was actually invoked, in invocation order.
Mirrors the short-circuit of Python's `any` over the generator. -/
def visitMixins : List BaseFilter → Nat → Bool × List Nat
  | [], _ => (false, [])
  | m :: rest, e =>
      if (BaseFilter.catch m e).isNone then (true, [m.label])
      else
        let r := visitMixins rest e
        (r.1, m.label :: r.2)

/-- Instrumented `BaseFilter.catch`: the result, the labels of the mixins
that were invoked (in order), and whether the local extractor ran. -/
def BaseFilter.catchTrace (f : BaseFilter) (e : Nat) :
    Option Nat × List Nat × Bool :=
  match f with
  | .node _ mixin func =>
      let r := visitMixins mixin e
      if r.1 then (none, r.2, false)
      else (localCatch func e, r.2, true)

/-! ## `trigger.py`: `Trigger` -/

/-- The state of the `asyncio.Future` held in `Trigger._future`. -/
inductive FutureState where
  | pending
  /-- `set_result(v)` was called (`v = none` models `set_result(None)`). -/
  | resolved (v : Option Nat)
  /-- `set_exception(e)` was called. -/
  | failed (e : Nat)
  /-- The future was cancelled (e.g. by `asyncio.wait_for` on timeout). -/
  | cancelled
  deriving DecidableEq, Repr

/-- `Future.done()`. -/
def futureDone : FutureState → Bool
  | .pending => false
  | _ => true

/-- The state of a `Trigger`.

`filterAttr` models the `filter` attribute: the class body only
*annotates* `filter` (no assignment), and `__init__` runs
`if filter: self.set_filter(filter)`, so when no filter is supplied the
attribute stays unset — outer `none`.  `some none` is the attribute
explicitly holding Python `None`.  The `event_name` tag is irrelevant to
the embedded operations and omitted. -/
structure Trigger where
  filterAttr : Option (Option TFilterFun)
  future : Option FutureState
  waited : Bool
  priority : Int

/-- Embeds `Trigger.__init__(event_name, priority=0, filter=None)`:
`if filter: self.set_filter(filter)` (a function is truthy, `None` is
falsy, so the `filter` attribute is assigned only when a filter is
given); `self._future = None`; `self._waited = False`. -/
def Trigger.init (filter : Option TFilterFun) (priority : Int) : Trigger :=
  { filterAttr := match filter with
      | some f => some (some f)
      | none => none
    future := none
    waited := false
    priority := priority }

/-- Embeds `Trigger.set_filter`: `self.filter = filter`. -/
def Trigger.setFilter (t : Trigger) (f : TFilterFun) : Trigger :=
  { t with filterAttr := some (some f) }

/-- Embeds `Trigger.done`:
`self._waited or bool(self._future and self._future.done())`. -/
def Trigger.done (t : Trigger) : Bool :=
  t.waited || (match t.future with
    | some f => futureDone f
    | none => false)

/-- Embeds `Trigger.reset`: `if self._future: self._future.cancel()`
(the old future object is discarded from the state), then
`self._future = ...create_future()`; `self._waited = False`. -/
def Trigger.reset (t : Trigger) : Trigger :=
  { t with future := some .pending, waited := false }

/-- Embeds `Trigger.catch`.  Source structure:
```
if self._future is None or self.done(): return False
if self.filter is not None:
    try:
        result = await async_(self.filter(event))
        if result is not None and not self._future.done():
            self._future.set_result(result); return True
    except Exception as e:
        if not self._future.done():
            self._future.set_exception(e); return True
else:
    self._future.set_result(None); return True
return False
```
Reading `self.filter` raises `AttributeError` when the attribute was
never assigned (outer `none`). -/
def Trigger.catch (t : Trigger) (e : Nat) : Except PyErr (Trigger × Bool) :=
  match t.future with
  | none => .ok (t, false)
  | some fut =>
    if t.done then .ok (t, false)
    else
      match t.filterAttr with
      | none => .error .attributeError
      | some (some f) =>
          match f e with
          | .value none => .ok (t, false)
          | .value (some v) =>
              if futureDone fut then .ok (t, false)
              else .ok ({ t with future := some (.resolved (some v)) }, true)
          | .raise ex =>
              if futureDone fut then .ok (t, false)
              else .ok ({ t with future := some (.failed ex) }, true)
      | some none => .ok ({ t with future := some (.resolved none) }, true)

/-- What `Trigger.wait` hands back to its caller: a returned value
(`.ret none` is Python `None`, the timeout outcome or a `None` result)
or a propagated exception. -/
inductive WaitRes where
  | ret (v : Option Nat)
  | raise (err : PyErr)
  deriving DecidableEq, Repr

/-- The environment's choice of how a suspension on a pending future
finishes: either the future reaches state `fs` and the `await` returns,
or (only possible when `timeout > 0`, i.e. under `asyncio.wait_for`) the
deadline fires first. -/
inductive Suspension where
  | completes (fs : FutureState)
  | timesOut

/-- Awaiting a future that has reached a terminal state:
a resolved future returns its value, a failed future re-raises the
stored exception, a cancelled future raises `CancelledError`.
(`pending` cannot be awaited to completion; callers guard it.) -/
def awaitRes : FutureState → WaitRes
  | .resolved v => .ret v
  | .failed ex => .raise (.exc ex)
  | .cancelled => .raise .cancelledError
  | .pending => .raise .cancelledError

/-- Embeds `Trigger.wait(timeout)`.  Source structure:
```
if self._waited: raise RuntimeError('触发器已被等待。')
if self._future is None: self._future = ...create_future()
try:
    if timeout > 0: return await asyncio.wait_for(self._future, timeout)
    else: return await self._future
except asyncio.TimeoutError: return None
finally: self._waited = self._future.done()
```
The float `timeout` is modelled as `Int`: only its sign is consulted.
The result is `none` when the modelled interaction cannot occur (the
oracle claims the await finished with a still-pending future, or a
deadline fired although no deadline exists); otherwise it is the
returned/raised outcome together with the trigger's final state.
On the deadline path `asyncio.wait_for` cancels the future, so the
`finally` clause records `_waited = True` there as well. -/
def Trigger.wait (t : Trigger) (timeout : Int) (osc : Suspension) :
    Option (WaitRes × Trigger) :=
  if t.waited then some (.raise .runtimeError, t)
  else
    match t.future.getD .pending with
    | .resolved v =>
        some (.ret v, { t with future := some (.resolved v), waited := true })
    | .failed ex =>
        some (.raise (.exc ex),
              { t with future := some (.failed ex), waited := true })
    | .cancelled =>
        some (.raise .cancelledError,
              { t with future := some .cancelled, waited := true })
    | .pending =>
        match osc with
        | .completes fs =>
            if futureDone fs then
              some (awaitRes fs, { t with future := some fs, waited := true })
            else none
        | .timesOut =>
            if 0 < timeout then
              some (.ret none,
                    { t with future := some .cancelled, waited := true })
            else none

/-! ## `mirai.utils.PriorityDict`

`PriorityDict` comes from the external `mirai` package (not part of this
repository's sources).  Modelled from the spec: *PriorityRegistry* — a
mapping from integer priority to an insertion-ordered collection of
entries; iteration yields the buckets in ascending priority order, each
bucket's entries in insertion order; entries can be removed by identity.
Represented as an association list sorted by priority. -/

/-- `PriorityDict.add(priority, x)`: append `x` to the bucket for
`priority`, keeping buckets sorted ascending by priority.
(Modelled from the spec: PriorityRegistry; our uses never add the same
entry twice, so the bucket's set-ness needs no separate check.) -/
def pdAdd {α : Type} (l : List (Int × List α)) (p : Int) (x : α) :
    List (Int × List α) :=
  match l with
  | [] => [(p, [x])]
  | (q, xs) :: rest =>
      if p < q then (p, [x]) :: (q, xs) :: rest
      else if p = q then (q, xs ++ [x]) :: rest
      else (q, xs) :: pdAdd rest p x

/-- `PriorityDict.remove(x)`: delete `x` from every bucket.
(Modelled from the spec: PriorityRegistry removal by identity.) -/
def pdRemove (l : List (Int × List Nat)) (x : Nat) : List (Int × List Nat) :=
  l.map (fun b => (b.1, b.2.filter (fun y => y ≠ x)))

/-- Membership of an entry in some bucket of the registry. -/
def pdMem (l : List (Int × List Nat)) (x : Nat) : Bool :=
  l.any (fun b => b.2.contains x)

/-! ## `handler.py`: `HandlerControl`

The subscription table for one event kind is a `PriorityDict` of
`(filter, handler)` pairs; handlers are identified by `Nat` labels and
their invocations are recorded as `(handler, event, payload)` triples in
invocation order. -/

/-- The inner loop of the callback installed by
`HandlerControl._new_handler`, over one priority bucket:
```
for filter_, func in list(filters):
    payload = filter_.catch(event)
    if payload is not None:
        results.append(func(event, payload))
```
Returns the calls appended to `results`, in order. -/
def hcBucket : List (BaseFilter × Nat) → Nat → List (Nat × Nat × Nat)
  | [], _ => []
  | (f, h) :: rest, e =>
      match f.catch e with
      | some payload => (h, e, payload) :: hcBucket rest e
      | none => hcBucket rest e

/-- The callback installed by `HandlerControl._new_handler` for an event
kind, given that kind's registry: walks the buckets in registry order
(ascending priority) and collects every handler invocation.
(The trailing `asyncio.gather` only aggregates the collected results and
adds no invocations.) -/
def hcProcessEvent (buckets : List (Int × List (BaseFilter × Nat)))
    (e : Nat) : List (Nat × Nat × Nat) :=
  match buckets with
  | [] => []
  | (_, entries) :: rest => hcBucket entries e ++ hcProcessEvent rest e

/-- Embeds `HandlerControl.subscribe(event, func, priority)` restricted
to one event kind: `self._handlers[event_name].add(priority, (filter_, func))`.
(The lazy per-kind `_new_handler` installation only creates the empty
registry, which the empty list already is.) -/
def hcSubscribe (buckets : List (Int × List (BaseFilter × Nat)))
    (filt : BaseFilter) (func : Nat) (priority : Int) :
    List (Int × List (BaseFilter × Nat)) :=
  pdAdd buckets priority (filt, func)

/-- Reference description of `hcProcessEvent` used to state fan-out:
every `(filter, handler)` pair in the flattened registry whose filter
captures the event contributes exactly one invocation
`(handler, event, payload)`, in registry order, with
`payload = filter.catch event`. -/
def hcInvoked (buckets : List (Int × List (BaseFilter × Nat)))
    (e : Nat) : List (Nat × Nat × Nat) :=
  ((buckets.map Prod.snd).flatten).filterMap
    (fun fh => (fh.1.catch e).map (fun v => (fh.2, e, v)))

/-! ## `interrupt.py`: `InterruptControl`

State for one event kind: a store of registered `Trigger`s addressed by
`Nat` identities, the kind's `PriorityDict` of trigger ids, the set of
ids whose completion actually carries the registry-removal callback, and
a fresh-id counter. -/

structure ICState where
  store : List (Nat × Trigger)
  registry : List (Int × List Nat)
  attached : List Nat
  nextId : Nat

/-- The empty per-kind state (fresh `PriorityDict`, no triggers). -/
def icEmpty : ICState := { store := [], registry := [], attached := [], nextId := 0 }

/-- Look a trigger up by id. -/
def storeGet (s : ICState) (id : Nat) : Option Trigger :=
  s.store.lookup id

/-- The argument of `InterruptControl.wait`: a bare `Filter` or a
`Trigger` (`Union[Filter, Trigger]`). -/
inductive WaitArg where
  | filt (f : BaseFilter)
  | trig (t : Trigger)

/-- Embeds the synchronous prefix of `InterruptControl.wait(trigger,
timeout, priority=0)`, up to the suspension on `trigger.wait`:
```
event_name = trigger.event_name
if isinstance(trigger, Filter):
    trigger = Trigger(trigger, priority=priority)
...
self._triggers[event_name].add(trigger.priority, trigger)
@trigger.add_done_callback
def _(_): self._triggers[event_name].remove(trigger)
```
For a bare `Filter` the source calls `Trigger(trigger, priority=priority)`
— the filter object is passed as `event_name` and the `filter` keyword is
*not* passed, so the wrapped trigger's `filter` attribute stays unset and
its `_future` is `None`.  `Trigger.add_done_callback` runs
`if self._future: self._future.add_done_callback(...)`, so the removal
callback is attached only when the trigger already has a future.
Returns the new state and the id under which the trigger was stored. -/
def icWaitSetup (s : ICState) (arg : WaitArg) (priority : Int) :
    ICState × Nat :=
  let t :=
    match arg with
    | .filt _ => Trigger.init none priority
    | .trig t => t
  let id := s.nextId
  ({ store := s.store ++ [(id, t)]
     registry := pdAdd s.registry t.priority id
     attached := if t.future.isSome then s.attached ++ [id] else s.attached
     nextId := id + 1 }, id)

/-- The completion step of a registered trigger's wait: the trigger's
future reaches terminal state `fs` (e.g. cancelled by the
`asyncio.wait_for` deadline) and `Trigger.wait` returns, its `finally`
clause recording `_waited = self._future.done()`; the future's done
callbacks then run, so the registry-removal callback installed by
`InterruptControl.wait` removes the trigger — but only if it was
actually attached (see `icWaitSetup`). -/
def icCompleteWait (s : ICState) (id : Nat) (fs : FutureState) : ICState :=
  { s with
    store := s.store.map (fun p =>
      if p.1 = id then (p.1, { p.2 with future := some fs, waited := futureDone fs })
      else p)
    registry := if s.attached.contains id then pdRemove s.registry id
                else s.registry }

/-- Truthiness of the coroutine object produced by calling an `async
def` function without awaiting it: a coroutine object is always truthy. -/
def coroutineIsTruthy : Bool := true

/-- The inner loop of the callback installed by
`InterruptControl._new_handler`:
```
for trigger in list(triggers):
    if trigger.catch(event): break
```
`Trigger.catch` is an `async def` function and the call is **not
awaited**, so the `if` tests the coroutine object itself — always truthy
— and the coroutine body (the real catch logic) never runs.  Hence the
loop breaks at the first trigger of the bucket with no state change.
Returns the state and whether the loop ended via `break`. -/
def icInner (ids : List Nat) (s : ICState) : ICState × Bool :=
  match ids with
  | [] => (s, false)
  | _ :: rest => if coroutineIsTruthy then (s, true) else icInner rest s

/-- The outer loop of the callback installed by
`InterruptControl._new_handler`:
```
for triggers in self._triggers[event_name]:
    for trigger in list(triggers): ...
    else: continue
    break
```
Walks the buckets in ascending priority order; the `for/else` makes the
outer loop break as soon as the inner loop broke. -/
def icOuter (bs : List (Int × List Nat)) (s : ICState) : ICState :=
  match bs with
  | [] => s
  | (_, ids) :: rest =>
      let r := icInner ids s
      if r.2 then r.1 else icOuter rest r.1

/-- One incoming event of the kind, as processed by the callback that
`InterruptControl._new_handler` registers on the bus.  The event value
itself is never consumed because `trigger.catch(event)` is never
awaited (see `icInner`). -/
def icProcessEvent (s : ICState) (_e : Nat) : ICState :=
  icOuter s.registry s

/-! ## Concrete instances used by witnesses and counterexamples -/

/-- A trigger filter that captures every event with payload `7`. -/
def constFilter7 : TFilterFun := fun _ => .value (some 7)

/-- A trigger filter that captures every event with payload `1`. -/
def constFilter1 : TFilterFun := fun _ => .value (some 1)

/-- A trigger filter that raises exception code `3` on every event. -/
def raiseFilter3 : TFilterFun := fun _ => .raise 3

/-- A fresh trigger (slot created) with an always-capturing filter. -/
def trigA : Trigger :=
  { filterAttr := some (some constFilter7), future := some .pending
    waited := false, priority := 0 }

/-- `trigA` after it captured an event. -/
def trigA' : Trigger := { trigA with future := some (.resolved (some 7)) }

/-- A trigger with resolution history: it captured an event and its
result was consumed by a completed `wait`. -/
def trigHist : Trigger :=
  { filterAttr := some (some constFilter7), future := some (.resolved (some 7))
    waited := true, priority := 0 }

/-- A fresh trigger whose filter raises. -/
def trigR : Trigger :=
  { filterAttr := some (some raiseFilter3), future := some .pending
    waited := false, priority := 0 }

/-- `trigR` after the raising filter ran inside `catch`. -/
def trigRfailed : Trigger := { trigR with future := some (.failed 3) }

/-- A trigger whose slot is already resolved and that was never waited. -/
def trigResolved4 : Trigger :=
  { filterAttr := none, future := some (.resolved (some 4))
    waited := false, priority := 0 }

/-- `trigResolved4` after its first completed `wait`. -/
def trigResolved4' : Trigger := { trigResolved4 with waited := true }

/-- A leaf filter that never captures. -/
def fAbsent : BaseFilter := .node 0 [] (some (fun _ => none))

/-- A leaf filter with no capture function (captures everything). -/
def fPlain : BaseFilter := .node 1 [] none

/-- A composite filter with mixins `[fAbsent, fPlain]` and an identity
extractor. -/
def fComp : BaseFilter := .node 2 [fAbsent, fPlain] (some (fun n => some n))

/-- A leaf filter extracting the event itself. -/
def fIdent : BaseFilter := .node 3 [] (some (fun n => some n))

/-- Trigger T1: priority 1, always matches (for the InterruptControl
priority scenario). -/
def trigT1 : Trigger := Trigger.reset (Trigger.init (some constFilter1) 1)

/-- Trigger T2: priority 5, always matches. -/
def trigT2 : Trigger := Trigger.reset (Trigger.init (some constFilter1) 5)

/-- InterruptControl state with `trigT1` (id 0) and `trigT2` (id 1)
registered and waiting, both slots pending. -/
def icStateC1 : ICState :=
  (icWaitSetup (icWaitSetup icEmpty (.trig trigT1) 0).1 (.trig trigT2) 0).1

/-- The result of registering a bare `Filter` through
`InterruptControl.wait` (the documented main usage). -/
def icSetupBare : ICState × Nat := icWaitSetup icEmpty (.filt fPlain) 0

/-- The state after that wait call times out: the wrapped trigger's
future is cancelled by `asyncio.wait_for` and `wait` returns `None`. -/
def icAfterTimeout : ICState := icCompleteWait icSetupBare.1 icSetupBare.2 .cancelled

/-! ## Helper lemmas -/

/-- Every path on which `Trigger.wait` returns records
`_waited = self._future.done() = True` in its `finally` clause
(or `_waited` was already `True` and the call raised immediately). -/
theorem wait_sets_waited (t : Trigger) (timeout : Int) (osc : Suspension)
    (res : WaitRes) (t' : Trigger)
    (h : Trigger.wait t timeout osc = some (res, t')) :
    t'.waited = true := by
  obtain ⟨fa, fut, w, p⟩ := t
  unfold Trigger.wait at h
  split at h
  next hw =>
    injection h with h'
    injection h' with h1 h2
    subst h2
    exact hw
  next hw =>
    split at h
    next v heq =>
      injection h with h'
      injection h' with h1 h2
      subst h2
      rfl
    next ex heq =>
      injection h with h'
      injection h' with h1 h2
      subst h2
      rfl
    next heq =>
      injection h with h'
      injection h' with h1 h2
      subst h2
      rfl
    next heq =>
      cases osc with
      | completes fs =>
        simp only at h
        split at h
        · injection h with h'
          injection h' with h1 h2
          subst h2
          rfl
        · exact absurd h (by simp)
      | timesOut =>
        simp only at h
        split at h
        · injection h with h'
          injection h' with h1 h2
          subst h2
          rfl
        · exact absurd h (by simp)

/-- The bucket loop of `HandlerControl`'s adapter is a `filterMap`:
each pair whose filter captures contributes one invocation, in order. -/
theorem hcBucket_filterMap (entries : List (BaseFilter × Nat)) (e : Nat) :
    hcBucket entries e
      = entries.filterMap
          (fun fh => (fh.1.catch e).map (fun v => (fh.2, e, v))) := by
  induction entries with
  | nil => rfl
  | cons fh rest ih =>
    obtain ⟨f, h⟩ := fh
    simp only [hcBucket, List.filterMap_cons]
    cases hc : f.catch e with
    | none => simpa [hc] using ih
    | some v => simpa [hc] using ih

/-! ## Claim theorems -/

/-- C1: evaluation of the code at the claim's own scenario.  With T1
(priority 1) and T2 (priority 5) both registered and both carrying an
always-capturing filter, processing an incoming event through the
adapter installed by `InterruptControl._new_handler` changes nothing:
`trigger.catch(event)` is called without `await`, the truthy coroutine
object makes the loop break at the first trigger, no filter ever runs,
and in particular T1 does **not** resolve (its slot stays pending) —
contradicting the claim that the first matching trigger captures the
event. -/
theorem interrupt_unawaited_catch_no_resolution :
    icProcessEvent icStateC1 0 = icStateC1
    ∧ (storeGet (icProcessEvent icStateC1 0) 0).map Trigger.future
        = some (some .pending)
    ∧ (storeGet (icProcessEvent icStateC1 0) 1).map Trigger.future
        = some (some .pending)
    ∧ pdMem (icProcessEvent icStateC1 0).registry 0 = true
    ∧ pdMem (icProcessEvent icStateC1 0).registry 1 = true :=
  ⟨rfl, rfl, rfl, rfl, rfl⟩

/-- C2: evaluation of the code at the claim's own scenario.  Passing a
bare `Filter` to `InterruptControl.wait` wraps it in a fresh `Trigger`
whose `_future` is `None`; `Trigger.add_done_callback` therefore drops
the registry-removal callback (`if self._future:` fails), so after the
wait completes (here: by timeout, the future cancelled and the trigger
marked waited) the trigger is **still present** in the kind's registry —
contradicting the claim that it is absent after `wait` returns. -/
theorem interrupt_wait_stale_registration :
    pdMem icAfterTimeout.registry icSetupBare.2 = true
    ∧ (storeGet icAfterTimeout icSetupBare.2).map Trigger.waited = some true
    ∧ (storeGet icAfterTimeout icSetupBare.2).map Trigger.future
        = some (some .cancelled) :=
  ⟨rfl, rfl, rfl⟩

/-- C3 counterexample: a trigger with resolution history, reset and then
asked to catch an event, returns `True`, while a newly constructed
Trigger with the same filter returns `False` from `catch` (its slot does
not exist yet: `__init__` leaves `_future = None`).  So reset-then-catch
is not identical to fresh-construction-then-catch. -/
theorem reset_vs_fresh_catch_differ :
    (Trigger.catch (Trigger.reset trigHist) 0).map Prod.snd = .ok true
    ∧ (Trigger.catch (Trigger.init (some constFilter7) 0) 0).map Prod.snd
        = .ok false :=
  ⟨rfl, rfl⟩

/-- C3 amended: for every Trigger constructed with filter `f` and
priority `p`, with arbitrary resolution history (any slot state, any
awaited flag), `reset` followed by `catch` behaves identically — same
state after reset, hence same `catch` result — to a newly constructed
Trigger with the same filter that has itself been `reset` (so that its
slot exists). -/
theorem reset_matches_fresh_reset (f : Option TFilterFun) (p : Int)
    (fut : Option FutureState) (w : Bool) (e : Nat) :
    Trigger.reset { Trigger.init f p with future := fut, waited := w }
      = Trigger.reset (Trigger.init f p)
    ∧ Trigger.catch
        (Trigger.reset { Trigger.init f p with future := fut, waited := w }) e
      = Trigger.catch (Trigger.reset (Trigger.init f p)) e :=
  ⟨rfl, rfl⟩

/-- C4: evaluation of the code at the claim's own scenario.  A Trigger
constructed without a filter never gets its `filter` attribute assigned
(`__init__` only runs `self.set_filter(filter)` when a filter is given
and the class body merely annotates the attribute), so `catch` on a live
slot raises `AttributeError` at `if self.filter is not None:` instead of
resolving the slot with `None` and returning `True`. -/
theorem no_filter_catch_attribute_error :
    Trigger.catch (Trigger.reset (Trigger.init none 0)) 0
      = .error .attributeError :=
  rfl

/-- C5: single resolution.  Once a `catch` call has returned `True` the
slot is terminal, so every subsequent `catch` on the same un-reset
Trigger returns `False` and leaves the state (including the resolved
payload) unchanged, whatever the event. -/
theorem single_resolution (t : Trigger) (e1 e2 : Nat) (t' : Trigger)
    (h : Trigger.catch t e1 = .ok (t', true)) :
    Trigger.catch t' e2 = .ok (t', false) := by
  obtain ⟨fa, fut, w, p⟩ := t
  cases fut with
  | none => simp [Trigger.catch] at h
  | some fs =>
    unfold Trigger.catch at h
    repeat' split at h
    all_goals simp at h
    all_goals subst h
    all_goals simp [Trigger.catch, Trigger.done, futureDone]

/-- C5 witness: a fresh trigger with an always-capturing filter captures
event 0, and the `single_resolution` theorem then gives that catching
event 1 on the resulting trigger returns `False` with no state change. -/
theorem single_resolution_witness :
    Trigger.catch trigA' 1 = .ok (trigA', false) :=
  single_resolution trigA 0 1 trigA' rfl

/-- C6: mixin short-circuit.  For a composite filter with mixin list
`[A, B]`, if `A.catch e` is absent then the composite's `catch e` is
absent, and the instrumented evaluation shows only `A` was invoked (`B`
is never consulted) and the local extractor never ran. -/
theorem mixin_short_circuit (A B : BaseFilter) (lbl : Nat)
    (func : Option (Nat → Option Nat)) (e : Nat)
    (h : BaseFilter.catch A e = none) :
    BaseFilter.catch (.node lbl [A, B] func) e = none
    ∧ BaseFilter.catchTrace (.node lbl [A, B] func) e
        = (none, [A.label], false) := by
  constructor
  · simp [BaseFilter.catch, anyMixinNone, h]
  · simp [BaseFilter.catchTrace, visitMixins, h]

/-- C6 witness: the composite `fComp` with mixins `[fAbsent, fPlain]`
returns absent on event 5, visiting only `fAbsent` and never running the
extractor. -/
theorem mixin_short_circuit_witness :
    BaseFilter.catch (.node 2 [fAbsent, fPlain] (some (fun n => some n))) 5
        = none
    ∧ BaseFilter.catchTrace
        (.node 2 [fAbsent, fPlain] (some (fun n => some n))) 5
        = (none, [0], false) :=
  mixin_short_circuit fAbsent fPlain 2 (some (fun n => some n)) 5 rfl

/-- C7: filter-failure capture and propagation.  On a Trigger with a
live, non-terminal slot whose filter raises on the event, `catch`
resolves the slot with that failure and returns `True`; a subsequent
`wait` on the trigger re-raises exactly that exception (it is not
swallowed: `wait` only catches `asyncio.TimeoutError`). -/
theorem filter_failure_capture (t : Trigger) (f : TFilterFun)
    (e ex : Nat) (timeout : Int) (osc : Suspension)
    (hfa : t.filterAttr = some (some f))
    (hfut : t.future = some .pending)
    (hw : t.waited = false)
    (hraise : f e = .raise ex) :
    Trigger.catch t e = .ok ({ t with future := some (.failed ex) }, true)
    ∧ Trigger.wait { t with future := some (.failed ex) } timeout osc
        = some (.raise (.exc ex),
                { t with future := some (.failed ex), waited := true }) := by
  obtain ⟨fa, fut, w, p⟩ := t
  simp only at hfa hfut hw
  subst hfa hfut hw
  constructor
  · simp [Trigger.catch, Trigger.done, futureDone, hraise]
  · simp [Trigger.wait]

/-- C7 witness: `trigR`'s filter raises exception 3; catching resolves
its slot with that failure and returns `True`, and waiting on the failed
trigger re-raises exception 3. -/
theorem filter_failure_capture_witness :
    Trigger.catch trigR 0 = .ok (trigRfailed, true)
    ∧ Trigger.wait trigRfailed 1 .timesOut
        = some (.raise (.exc 3), { trigRfailed with waited := true }) :=
  filter_failure_capture trigR raiseFilter3 0 3 1 .timesOut rfl rfl rfl rfl

/-- C8: double-wait raises.  Whenever a `wait` call returns (delivering
a value, `None` on timeout, or propagating an exception), the trigger is
marked awaited, and any second `wait` on it raises
`RuntimeError('触发器已被等待。')` immediately, regardless of the second
call's timeout or of how the environment would schedule it. -/
theorem double_wait_raises (t : Trigger) (timeout : Int) (osc : Suspension)
    (res : WaitRes) (t' : Trigger) (timeout2 : Int) (osc2 : Suspension)
    (h : Trigger.wait t timeout osc = some (res, t')) :
    Trigger.wait t' timeout2 osc2 = some (.raise .runtimeError, t') := by
  have hw := wait_sets_waited t timeout osc res t' h
  obtain ⟨fa', fut', w', p'⟩ := t'
  simp only at hw
  subst hw
  simp [Trigger.wait]

/-- C8 witness: a trigger whose slot is already resolved completes its
first `wait` immediately with the payload; the theorem then gives that a
second `wait` raises. -/
theorem double_wait_raises_witness :
    Trigger.wait trigResolved4' 2 (.completes .pending)
      = some (.raise .runtimeError, trigResolved4') :=
  double_wait_raises trigResolved4 0 .timesOut (.ret (some 4)) trigResolved4'
    2 (.completes .pending) rfl

/-- C9: HandlerControl fan-out.  First conjunct: the adapter installed
by `HandlerControl._new_handler` invokes, for any registry state and any
event, exactly the handlers whose paired filter captures the event — one
invocation per registered pair, in registry order (ascending priority,
insertion order within a bucket), each with the event and the payload
`filter.catch event` (so two handlers on the same filter receive the
identical payload).  Second conjunct: the claim's instance — handlers
`h1` (priority 0) and `h2` (priority 10) subscribed on the same filter
`F` that captures `e` with payload `v` are both invoked, in that order,
with `(e, v)`. -/
theorem handler_fanout :
    (∀ (buckets : List (Int × List (BaseFilter × Nat))) (e : Nat),
        hcProcessEvent buckets e = hcInvoked buckets e)
    ∧ (∀ (F : BaseFilter) (h1 h2 e v : Nat), BaseFilter.catch F e = some v →
        hcProcessEvent (hcSubscribe (hcSubscribe [] F h1 0) F h2 10) e
          = [(h1, e, v), (h2, e, v)]) := by
  constructor
  · intro buckets e
    induction buckets with
    | nil => rfl
    | cons b rest ih =>
      obtain ⟨pr, entries⟩ := b
      simp only [hcProcessEvent, hcInvoked, List.map_cons, List.flatten_cons,
        List.filterMap_append] at ih ⊢
      rw [hcBucket_filterMap, ih]
  · intro F h1 h2 e v hc
    show hcProcessEvent (pdAdd (pdAdd [] 0 (F, h1)) 10 (F, h2)) e = _
    norm_num [pdAdd, hcProcessEvent, hcBucket, hc]

/-- C9 witness: the identity filter captures event 4 with payload 4, and
handlers 1 (priority 0) and 2 (priority 10) subscribed on it are both
invoked in that order with `(4, 4)`. -/
theorem handler_fanout_witness :
    hcProcessEvent (hcSubscribe (hcSubscribe [] fIdent 1 0) fIdent 2 10) 4
      = [(1, 4, 4), (2, 4, 4)] :=
  handler_fanout.2 fIdent 1 2 4 4 rfl

/-- C10: when `InterruptControl.wait` receives a `Trigger` instance, the
`priority` parameter has no effect — the resulting state is the same for
any two priority arguments, and the trigger is registered in the kind's
registry under its own `priority` attribute.  The parameter is consulted
exactly when a bare `Filter` is passed: the freshly wrapped trigger is
registered under the given priority. -/
theorem trigger_arg_ignores_priority (s : ICState) (t : Trigger)
    (p q : Int) (f : BaseFilter) :
    icWaitSetup s (.trig t) p = icWaitSetup s (.trig t) q
    ∧ (icWaitSetup s (.trig t) p).1.registry
        = pdAdd s.registry t.priority s.nextId
    ∧ (icWaitSetup s (.filt f) p).1.registry = pdAdd s.registry p s.nextId :=
  ⟨rfl, rfl, rfl⟩

end TriggerSpec
